import Mathlib

/-!
Verification development for the `backend-compro` service (Go/Fiber + pgx).
Shallow embedding of the authentication middleware, the user/product/carousel
handlers and their SQL mutations, with theorems about the specified behavior.

Conventions: machine strings are ASCII in all inputs of interest, so Go's
byte-indexed string operations coincide with character-indexed ones here;
fallible operations return `Option` with `none` standing for a Go runtime
panic; database and filesystem effects are made explicit (state passing and
event traces).
-/

set_option linter.unusedVariables false

namespace BackendCompro

/-- Role constants from `internal/models/user.go` (`UserRole` is a Go string
type with constants `admin` / `staff` / `user`). -/
def RoleAdmin : String := "admin"

/-- `models.RoleStaff`. -/
def RoleStaff : String := "staff"

/-- `models.RoleUser`. -/
def RoleUser : String := "user"

/-- Go slice expression `s[i:j]` on a string: `none` when the bounds fall
outside the string (an index-out-of-range panic at runtime). -/
def goSlice (s : String) (i j : Nat) : Option String :=
  if i ≤ j ∧ j ≤ s.length then some (String.mk ((s.toList.take j).drop i)) else none

/-- `isUniqueConstraintViolation` from `internal/handlers/user_handler.go`
lines 133-136: `err.Error()[0:5] == "ERROR" && err.Error()[6:10] == "23505"`.
The `&&` short-circuits as in Go, and `none` models the panic when a slice
bound exceeds the message length. -/
def isUniqueConstraintViolation (msg : String) : Option Bool :=
  match goSlice msg 0 5 with
  | none => none
  | some a =>
    if a = "ERROR" then
      match goSlice msg 6 10 with
      | none => none
      | some b => some (b == "23505")
    else
      some false

/-- HTTP status classes produced by the handlers. -/
inductive HStatus
  | ok | created | badRequest | unauthorized | forbidden | notFound | conflict | internal
  deriving DecidableEq, Repr

/-- The store-error branch shared by `CreateUser` / `UpdateUser` /
`RegisterUser` (`user_handler.go` lines 90-100, 200-216, 584-593): a
unique-constraint violation maps to 409 Conflict, any other store failure to
500 Internal; `none` propagates the panic from `isUniqueConstraintViolation`. -/
def mutationErrorStatus (msg : String) : Option HStatus :=
  match isUniqueConstraintViolation msg with
  | none => none
  | some true => some .conflict
  | some false => some .internal

theorem goSlice_length {s : String} {i j : Nat} {t : String}
    (h : goSlice s i j = some t) : t.length = j - i := by
  unfold goSlice at h
  split at h
  · rename_i hb
    cases h
    simp only [String.length, String.mk, List.length_drop, List.length_take]
    have : s.toList.length = s.length := rfl
    omega
  · exact Option.noConfusion h

/-- C6: the claim asserts `isUniqueConstraintViolation` returns true exactly
for PostgreSQL 23505 errors and that unique violations are mapped to 409
Conflict. In fact the function compares the four-byte slice `[6:10]` against
the five-byte literal `"23505"`, which can never be equal, so it never returns
true and a real pgx unique-violation message is mapped to 500 Internal, never
409 — the code contradicts its own comment (`23505 adalah unique_violation`). -/
theorem c6_unique_violation_never_conflict :
    (∀ msg : String, isUniqueConstraintViolation msg ≠ some true) ∧
    mutationErrorStatus
        "ERROR: duplicate key value violates unique constraint \"users_username_key\" (SQLSTATE 23505)"
      = some HStatus.internal := by
  constructor
  · intro msg h
    unfold isUniqueConstraintViolation at h
    cases h5 : goSlice msg 0 5 with
    | none => rw [h5] at h; exact Option.noConfusion h
    | some a =>
      rw [h5] at h
      dsimp only at h
      by_cases ha : a = "ERROR"
      · rw [if_pos ha] at h
        cases h10 : goSlice msg 6 10 with
        | none => rw [h10] at h; exact Option.noConfusion h
        | some b =>
          rw [h10] at h
          have hb4 : b.length = 4 := by simpa using goSlice_length h10
          have hbe : (b == "23505") = true := by
            injection h
          have : b = "23505" := eq_of_beq hbe
          rw [this] at hb4
          exact absurd hb4 (by decide)
      · rw [if_neg ha] at h
        simp at h
  · rfl

/-- C10 counterexample: the claim asserts `isUniqueConstraintViolation` is
total on every error, including messages shorter than ten bytes. On the empty
message the very first slice `err.Error()[0:5]` is out of range: the function
(and with it the handler's error branch) faults instead of producing a
boolean/error response. -/
theorem c10_short_error_counterexample :
    isUniqueConstraintViolation "" = none ∧ mutationErrorStatus "" = none :=
  ⟨rfl, rfl⟩

/-- C10 amended: `isUniqueConstraintViolation` is total only on error messages
of at least ten bytes — for those it returns a boolean without a fault;
shorter messages can hit an index-out-of-range panic. -/
theorem c10_total_on_long_messages_amended (msg : String) (h : 10 ≤ msg.length) :
    (isUniqueConstraintViolation msg).isSome = true := by
  unfold isUniqueConstraintViolation goSlice
  rw [if_pos (by omega : 0 ≤ 5 ∧ 5 ≤ msg.length),
    if_pos (by omega : 6 ≤ 10 ∧ 10 ≤ msg.length)]
  dsimp only
  split <;> rfl

/-- Witness for the C10 amended theorem at a concrete ten-byte message. -/
theorem c10_total_on_long_messages_witness :
    10 ≤ ("0123456789" : String).length ∧
      (isUniqueConstraintViolation "0123456789").isSome = true :=
  ⟨by decide, c10_total_on_long_messages_amended "0123456789" (by decide)⟩

/-- A row of the `users` table (`internal/models/user.go`). Timestamps are
naturals; nullable columns are `Option`. -/
structure UserRow where
  id : Int
  name : String
  phone : String
  username : String
  password : String
  role : String
  status : Bool
  createdAt : Nat
  createdBy : Option Int
  editedAt : Option Nat
  editedBy : Option Int
  deletedAt : Option Nat
  deletedBy : Option Int
  deriving DecidableEq, Repr

/-- `models.UpdateRequest`: empty string (respectively `nil` pointer for
`Status`) means the field was not provided. -/
structure UpdateRequest where
  name : String
  phone : String
  username : String
  password : String
  role : String
  status : Option Bool
  deriving DecidableEq, Repr

/-- `isAlphanumeric` (user_handler.go lines 307-314): every rune is a letter
or a number (ASCII here). -/
def isAlphanumeric (s : String) : Bool :=
  s.toList.all fun r => r.isAlpha || r.isDigit

/-- `isValidPhone` (user_handler.go lines 316-319). -/
def isValidPhone (phone : String) : Bool :=
  phone.startsWith "+" && phone.length > 8

/-- `validateUpdateRequest` (user_handler.go lines 223-248): the names of the
fields that fail validation; the request is accepted when the list is empty. -/
def validateUpdateRequest (req : UpdateRequest) : List String :=
  (if req.name != "" && req.name.length < 3 then ["name"] else []) ++
  (if req.phone != "" && !isValidPhone req.phone then ["phone"] else []) ++
  (if req.username != "" && !isAlphanumeric req.username then ["username"] else []) ++
  (if req.password != "" && req.password.length < 8 then ["password"] else [])

/-- A positional SQL argument. -/
inductive SqlArg
  | str (s : String)
  | boolean (b : Bool)
  | int (i : Int)
  deriving DecidableEq, Repr

/-- One conditional `SET` clause of `buildUpdateQuery`: when `cond` holds it
appends `field = $counter, ` to the statement, the argument, and bumps the
placeholder counter. -/
def setClause (st : String × List SqlArg × Nat) (cond : Bool) (field : String)
    (a : SqlArg) : String × List SqlArg × Nat :=
  let (q, args, c) := st
  if cond then (q ++ s!"{field} = ${c}, ", args ++ [a], c + 1) else st

/-- `buildUpdateQuery` (user_handler.go lines 250-305): builds the dynamic
`UPDATE users SET ...` statement and its argument list. The statement always
assigns `edited_by`, never mentions `edited_at`, and its final predicate is
`WHERE id = $n` with no `deleted_at IS NULL` conjunct. -/
def buildUpdateQuery (req : UpdateRequest) (hashedPassword : String)
    (editedBy targetID : Int) (requestRole : String) : String × List SqlArg :=
  let st0 := ("UPDATE users SET ", ([] : List SqlArg), 1)
  let st1 := setClause st0 (req.name != "") "name" (.str req.name)
  let st2 := setClause st1 (req.phone != "") "phone" (.str req.phone)
  let st3 := setClause st2 (req.username != "") "username" (.str req.username)
  let st4 := setClause st3 (hashedPassword != "") "password" (.str hashedPassword)
  let st5 := setClause st4 (req.role != "" && requestRole == RoleAdmin) "role" (.str req.role)
  let st6 :=
    match req.status with
    | some b => if requestRole == RoleAdmin then setClause st5 true "status" (.boolean b) else st5
    | none => st5
  let (q, args, c) := st6
  (q ++ s!"edited_by = ${c} " ++ s!"WHERE id = ${c + 1}",
    args ++ [SqlArg.int editedBy, SqlArg.int targetID])

/-- Row semantics of the statement built by `buildUpdateQuery`: a row is
mutated exactly when its `id` matches (the `WHERE` clause filters on `id`
alone, soft-deleted rows included); each provided field is assigned under the
same guards as the corresponding `SET` clause, `edited_by` is always
assigned, and `edited_at` is untouched because the statement never sets it. -/
def applyUserUpdate (req : UpdateRequest) (hashedPassword : String)
    (editedBy targetID : Int) (requestRole : String) (row : UserRow) : UserRow :=
  if row.id = targetID then
    { row with
      name := if req.name != "" then req.name else row.name
      phone := if req.phone != "" then req.phone else row.phone
      username := if req.username != "" then req.username else row.username
      password := if hashedPassword != "" then hashedPassword else row.password
      role := if req.role != "" && requestRole == RoleAdmin then req.role else row.role
      status :=
        match req.status with
        | some b => if requestRole == RoleAdmin then b else row.status
        | none => row.status
      editedBy := some editedBy }
  else row

/-- The hashed password computed by `UpdateUser` lines 186-195: empty when no
password was submitted, otherwise the bcrypt digest (`hash` abstracts
`bcrypt.GenerateFromPassword`, assumed to succeed). -/
def goBcrypt (hash : String → String) (password : String) : String :=
  if password != "" then hash password else ""

/-- `UpdateUser` (user_handler.go lines 153-221) on parsed inputs over an
explicit list of rows: authorization check, validation, then execution of the
statement built by `buildUpdateQuery`; `RowsAffected` is the number of rows
matched by its `WHERE id = $n` predicate. -/
def updateUser (hash : String → String) (requesterID : Int) (requesterRole : String)
    (targetID : Int) (req : UpdateRequest) (db : List UserRow) : HStatus × List UserRow :=
  if requesterRole != RoleAdmin && requesterID != targetID then (.forbidden, db)
  else if validateUpdateRequest req != [] then (.badRequest, db)
  else if db.countP (fun r => r.id == targetID) = 0 then
    (.notFound,
      db.map (applyUserUpdate req (goBcrypt hash req.password) requesterID targetID requesterRole))
  else
    (.ok,
      db.map (applyUserUpdate req (goBcrypt hash req.password) requesterID targetID requesterRole))

/-- A soft-deleted user row (deleted at time 5) used in counterexamples. -/
def softDeletedUser : UserRow :=
  { id := 42, name := "Old", phone := "+628111111111", username := "old42",
    password := "h", role := "user", status := true, createdAt := 1,
    createdBy := some 1, editedAt := some 5, editedBy := some 1,
    deletedAt := some 5, deletedBy := some 1 }

/-- The change-set that only renames the user to `Bob`. -/
def nameOnlyReq : UpdateRequest :=
  { name := "Bob", phone := "", username := "", password := "", role := "", status := none }

/-- C1 counterexample: an update by an admin targeting user 42 whose
`deletedAt` is non-null returns success and mutates the soft-deleted row —
not NotFound — because the statement built by `buildUpdateQuery` reads
`UPDATE users SET name = $1, edited_by = $2 WHERE id = $3`, with no
`deleted_at IS NULL` predicate. -/
theorem c1_softdeleted_update_counterexample :
    softDeletedUser.deletedAt ≠ none ∧
    (updateUser (fun s => s) 1 RoleAdmin 42 nameOnlyReq [softDeletedUser]).1 = HStatus.ok ∧
    (updateUser (fun s => s) 1 RoleAdmin 42 nameOnlyReq [softDeletedUser]).2 =
      [{ softDeletedUser with name := "Bob", editedBy := some 1 }] ∧
    (buildUpdateQuery nameOnlyReq "" 1 42 RoleAdmin).1 =
      "UPDATE users SET name = $1, edited_by = $2 WHERE id = $3" :=
  ⟨by decide, rfl, by decide, rfl⟩

/-- C1 amended: reads and soft-deletes on `users` carry `deleted_at IS NULL`,
but the users update built by `buildUpdateQuery` filters on `id` alone, so an
authorized, well-formed update call whose target row is soft-deleted returns
success (and mutates the row) rather than NotFound. -/
theorem c1_softdeleted_update_succeeds (hash : String → String) (requesterID : Int)
    (requesterRole : String) (targetID : Int) (req : UpdateRequest) (db : List UserRow)
    (row : UserRow) (hauth : requesterRole = RoleAdmin ∨ requesterID = targetID)
    (hvalid : validateUpdateRequest req = [])
    (hmem : row ∈ db) (hid : row.id = targetID) (hdel : row.deletedAt ≠ none) :
    (updateUser hash requesterID requesterRole targetID req db).1 = HStatus.ok := by
  have hcount : 0 < db.countP (fun r => r.id == targetID) :=
    List.countP_pos_iff.mpr ⟨row, hmem, by simp [hid]⟩
  unfold updateUser
  rw [if_neg (by cases hauth with
        | inl h => simp [h]
        | inr h => simp [h]),
    if_neg (by simp [hvalid]), if_neg (by omega)]

/-- Witness for the C1 amended theorem at the concrete soft-deleted row. -/
theorem c1_softdeleted_update_succeeds_witness :
    validateUpdateRequest nameOnlyReq = [] ∧ softDeletedUser.deletedAt ≠ none ∧
    (updateUser (fun s => s) 1 RoleAdmin 42 nameOnlyReq [softDeletedUser]).1 = HStatus.ok :=
  ⟨rfl, by decide,
    c1_softdeleted_update_succeeds (fun s => s) 1 RoleAdmin 42 nameOnlyReq
      [softDeletedUser] softDeletedUser (Or.inl rfl) rfl (by simp) rfl (by decide)⟩

/-- C3: for a non-privileged principal, the `role` and `status` clauses of
`buildUpdateQuery` are guarded by `requestRole == RoleAdmin`, so an update
whose change-set contains those admin-only fields succeeds with the admin-only
fields silently dropped (they keep their prior values on every row) while the
unrestricted fields (here `name`) are applied to the target row. -/
theorem c3_admin_fields_dropped (hash : String → String) (requesterID : Int)
    (requesterRole : String) (req : UpdateRequest) (db : List UserRow) (row : UserRow)
    (hrole : requesterRole ≠ RoleAdmin)
    (hvalid : validateUpdateRequest req = [])
    (hmem : row ∈ db) (hid : row.id = requesterID) :
    (updateUser hash requesterID requesterRole requesterID req db).1 = HStatus.ok ∧
    (updateUser hash requesterID requesterRole requesterID req db).2 =
      db.map (applyUserUpdate req (goBcrypt hash req.password)
        requesterID requesterID requesterRole) ∧
    (∀ r : UserRow,
      (applyUserUpdate req (goBcrypt hash req.password)
          requesterID requesterID requesterRole r).role = r.role ∧
      (applyUserUpdate req (goBcrypt hash req.password)
          requesterID requesterID requesterRole r).status = r.status) ∧
    (req.name != "" → ∀ r : UserRow, r.id = requesterID →
      (applyUserUpdate req (goBcrypt hash req.password)
          requesterID requesterID requesterRole r).name = req.name) := by
  have hcount : 0 < db.countP (fun r => r.id == requesterID) :=
    List.countP_pos_iff.mpr ⟨row, hmem, by simp [hid]⟩
  refine ⟨?_, ?_, ?_, ?_⟩
  · unfold updateUser
    rw [if_neg (by simp), if_neg (by simp [hvalid]), if_neg (by omega)]
  · unfold updateUser
    rw [if_neg (by simp), if_neg (by simp [hvalid]), if_neg (by omega)]
  · intro r
    unfold applyUserUpdate
    constructor
    · split
      · simp [hrole]
      · rfl
    · split
      · cases req.status with
        | some b => simp [hrole]
        | none => rfl
      · rfl
  · intro hname r hr
    unfold applyUserUpdate
    rw [if_pos hr]
    simp [hname]

/-- The scenario change-set `{name := "Alice", role := "admin"}`. -/
def c3Req : UpdateRequest :=
  { name := "Alice", phone := "", username := "", password := "", role := "admin",
    status := none }

/-- The prior state of user 7 (`role = user`). -/
def c3Row : UserRow :=
  { id := 7, name := "Seven", phone := "+628999999999", username := "seven7",
    password := "h", role := "user", status := true, createdAt := 1,
    createdBy := some 1, editedAt := some 3, editedBy := some 1,
    deletedAt := none, deletedBy := none }

/-- Witness for C3 at the claim's scenario: principal `{7, user}` submitting
`{name: "Alice", role: "admin"}` gets success, `name = "Alice"`, `role`
unchanged. -/
theorem c3_admin_fields_dropped_witness :
    RoleUser ≠ RoleAdmin ∧ validateUpdateRequest c3Req = [] ∧ c3Row.id = 7 ∧
    (updateUser (fun s => s) 7 RoleUser 7 c3Req [c3Row]).1 = HStatus.ok ∧
    (applyUserUpdate c3Req (goBcrypt (fun s => s) c3Req.password) 7 7 RoleUser c3Row).role
      = c3Row.role ∧
    (applyUserUpdate c3Req (goBcrypt (fun s => s) c3Req.password) 7 7 RoleUser c3Row).name
      = "Alice" := by
  have h := c3_admin_fields_dropped (fun s => s) 7 RoleUser c3Req [c3Row] c3Row
    (by decide) rfl (by simp) rfl
  exact ⟨by decide, rfl, rfl, h.1, (h.2.2.1 c3Row).1, h.2.2.2 (by decide) c3Row rfl⟩

/-- JWT claims payload (`models.Claims`): subject id and role. -/
structure Claims where
  userID : Int
  role : String
  deriving DecidableEq, Repr

/-- `ExtractToken` (internal/middleware/admin.go lines 78-83):
`len(header) > 7 && header[:7] == "Bearer "` yields `header[7:]`, else `""`. -/
def extractToken (header : String) : String :=
  if header.length > 7 && header.take 7 == "Bearer " then header.drop 7 else ""

/-- Outcome of the authentication middleware. -/
inductive AuthOutcome
  | unauthorized (msg : String)
  | internalError (msg : String)
  | next (userID : Int) (role : String)
  deriving DecidableEq, Repr

/-- `AuthMiddleware` (internal/middleware/admin.go lines 31-76). `verify`
abstracts `validateToken` (signature and expiry verification; `none` means
invalid) and `isRevoked` abstracts the `token_blacklist` EXISTS query
(`none` means the query itself failed). The revocation lookup is reached only
after verification succeeds, and a hit rejects the request with 401. -/
def authMiddleware (verify : String → Option Claims) (isRevoked : String → Option Bool)
    (header : String) : AuthOutcome :=
  if header = "" then .unauthorized "Authorization header required"
  else if extractToken header = "" then .unauthorized "Invalid token format"
  else
    match verify (extractToken header) with
    | none => .unauthorized "Invalid token"
    | some claims =>
      match isRevoked (extractToken header) with
      | none => .internalError "Failed to check token status"
      | some true => .unauthorized "Token revoked"
      | some false => .next claims.userID claims.role

/-- C2: whenever the token extracted from the request is reported revoked by
the blacklist lookup, the middleware rejects the request with 401
`Token revoked`, even though the token verified successfully (valid signature,
unexpired); the lookup sits synchronously on the authenticated path, after
verification. -/
theorem c2_revoked_token_rejected (verify : String → Option Claims)
    (isRevoked : String → Option Bool) (header : String) (claims : Claims)
    (htok : extractToken header ≠ "")
    (hver : verify (extractToken header) = some claims)
    (hrev : isRevoked (extractToken header) = some true) :
    authMiddleware verify isRevoked header = .unauthorized "Token revoked" := by
  have hh : header ≠ "" := by
    intro h
    exact htok (by rw [h]; rfl)
  unfold authMiddleware
  rw [if_neg hh, if_neg htok, hver, hrev]

/-- Witness for C2: a concrete revoked token is rejected. -/
theorem c2_revoked_token_rejected_witness :
    extractToken "Bearer tok" ≠ "" ∧
    (fun t => if t = "tok" then some (Claims.mk 9 RoleUser) else none) (extractToken "Bearer tok")
      = some (Claims.mk 9 RoleUser) ∧
    (fun t => some (t = "tok" : Bool)) (extractToken "Bearer tok") = some true ∧
    authMiddleware (fun t => if t = "tok" then some (Claims.mk 9 RoleUser) else none)
        (fun t => some (t = "tok" : Bool)) "Bearer tok"
      = .unauthorized "Token revoked" :=
  ⟨by decide, by decide, by decide,
    c2_revoked_token_rejected (fun t => if t = "tok" then some (Claims.mk 9 RoleUser) else none)
      (fun t => some (t = "tok" : Bool)) "Bearer tok" (Claims.mk 9 RoleUser)
      (by decide) (by decide) (by decide)⟩

/-- Modelled from the spec: the `token_blacklist` table schema is not under
`src/` (only its INSERT and EXISTS queries are). Spec §3 declares
`RevocationEntry.tokenValue` unique, so the plain `INSERT` issued by `Logout`
fails with a unique-constraint error when the token is already present, and
inserts the entry otherwise. -/
def blacklistInsert (bl : List String) (token : String) : Option (List String) :=
  if token ∈ bl then none else some (token :: bl)

/-- `Logout` (auth handler, src/unnamed/part_004 lines 90-129): extract and
verify the token, then INSERT it into `token_blacklist`; a `nil` insert error
yields success, any insert error is surfaced as 500 `Failed to logout`. -/
def logout (verify : String → Option Claims) (bl : List String) (header : String) :
    HStatus × List String :=
  if extractToken header = "" then (.unauthorized, bl)
  else
    match verify (extractToken header) with
    | none => (.unauthorized, bl)
    | some _ =>
      match blacklistInsert bl (extractToken header) with
      | none => (.internal, bl)
      | some bl2 => (.ok, bl2)

/-- C4 counterexample: logging out the same token twice — the first call
succeeds, the second surfaces the duplicate insert as 500 Internal to the
caller, so revocation is not idempotent as claimed. -/
theorem c4_duplicate_logout_counterexample :
    (logout (fun t => if t = "tok" then some (Claims.mk 1 RoleUser) else none)
      [] "Bearer tok").1 = HStatus.ok ∧
    (logout (fun t => if t = "tok" then some (Claims.mk 1 RoleUser) else none)
      (logout (fun t => if t = "tok" then some (Claims.mk 1 RoleUser) else none)
        [] "Bearer tok").2 "Bearer tok").1 = HStatus.internal :=
  ⟨rfl, rfl⟩

/-- C4 amended: `Logout` records revocation with a plain `INSERT` (no
`ON CONFLICT` handling); under the registry's unique `tokenValue` constraint a
second logout for an already-revoked token is surfaced to the caller as 500
Internal, leaving the registry unchanged — revocation is not idempotent. -/
theorem c4_duplicate_logout_errors (verify : String → Option Claims) (bl : List String)
    (header : String) (claims : Claims)
    (htok : extractToken header ≠ "")
    (hver : verify (extractToken header) = some claims)
    (hmem : extractToken header ∈ bl) :
    logout verify bl header = (HStatus.internal, bl) := by
  unfold logout
  rw [if_neg htok, hver]
  unfold blacklistInsert
  rw [if_pos hmem]

/-- Witness for the C4 amended theorem at a concrete duplicate logout. -/
theorem c4_duplicate_logout_errors_witness :
    extractToken "Bearer tok" ≠ "" ∧ "tok" ∈ ["tok"] ∧
    logout (fun t => if t = "tok" then some (Claims.mk 1 RoleUser) else none)
        ["tok"] "Bearer tok"
      = (HStatus.internal, ["tok"]) :=
  ⟨by decide, by decide,
    c4_duplicate_logout_errors (fun t => if t = "tok" then some (Claims.mk 1 RoleUser) else none)
      ["tok"] "Bearer tok" (Claims.mk 1 RoleUser) (by decide) (by decide) (by decide)⟩

/-- Filesystem and store effects in the order the handler performs them:
`save` is `c.SaveFile`, `asyncRemove` the launch of a detached
`go os.Remove(...)`, `syncRemove` an inline `os.Remove(...)`, and `dbWrite`
the execution of the store mutation. Paths are recorded exactly as passed to
the Go calls. -/
inductive FsEvent
  | save (path : String)
  | asyncRemove (path : String)
  | syncRemove (path : String)
  | dbWrite
  deriving DecidableEq, Repr

/-- Go `filepath.Clean` restricted to the paths this codebase builds: the only
cleaning that ever applies is stripping a leading `./` (no other `.` or `..`
components occur in these paths). -/
def pathClean (s : String) : String :=
  match s.toList with
  | '.' :: '/' :: rest => String.mk rest
  | _ => s

/-- Go `filepath.Join a b` on this codebase's paths: concatenate with a single
separator and clean. -/
def goJoin (a b : String) : String :=
  pathClean ((if a.toList.getLast? = some '/' then String.mk a.toList.dropLast else a)
    ++ "/" ++ b)

/-- Go `strings.ToLower` on the ASCII filenames this codebase handles. -/
def goToLower (s : String) : String :=
  String.mk (s.toList.map Char.toLower)

/-- The files present in the uploads area after a trace: `save` writes its
(cleaned) target, either kind of remove deletes the file its (cleaned)
argument denotes, and removing an absent path is a no-op (`os.Remove` merely
returns an error, which the handlers ignore or log). -/
def fsApply (fs : List String) : FsEvent → List String
  | .save p => pathClean p :: fs
  | .syncRemove p => fs.erase (pathClean p)
  | .asyncRemove p => fs.erase (pathClean p)
  | .dbWrite => fs

/-- Run a trace against an initial uploads-area state. -/
def fsRun (fs : List String) (tr : List FsEvent) : List String := tr.foldl fsApply fs

/-- Go `filepath.Ext`: the suffix starting at the final dot, empty when the
name has no dot. -/
def goExt (name : String) : String :=
  if name.toList.contains '.' then
    String.mk ('.' :: (name.toList.reverse.takeWhile (fun c => c != '.')).reverse)
  else ""

/-- Go `strings.ReplaceAll` for the single-character patterns used here. -/
def goReplaceAll (s : String) (old new : Char) : String :=
  String.mk (s.toList.map fun c => if c = old then new else c)

/-- A row of the `products` table (`internal/models/products.go`); `price`
models `decimal.Decimal` as an integer count of smallest currency units. -/
structure ProductRow where
  id : Int
  image : String
  title : String
  description : String
  typeProduct : String
  price : Int
  status : Bool
  createdAt : Nat
  createdBy : Int
  editedAt : Option Nat
  editedBy : Option Int
  deletedAt : Option Nat
  deletedBy : Option Int
  deriving DecidableEq, Repr

/-- `models.ProductUpdateRequest` after form parsing: `price = none` models
the empty price string (the handler leaves the decimal at zero), `status =
none` a `nil` pointer. -/
structure ProductUpdateRequest where
  title : String
  description : String
  typeProduct : String
  price : Option Int
  status : Option Bool
  deriving DecidableEq, Repr

/-- The image extensions `CreateProduct` / `UpdateProduct` accept. -/
def allowedImageExts : List String := [".jpg", ".jpeg", ".png", ".webp"]

/-- Row semantics of `UPDATE products SET ... WHERE id = $8 RETURNING *`
(product_handler.go lines 279-302): each `COALESCE(NULLIF(..))` keeps the old
value when the parameter is empty (zero for `price`), `status` coalesces a
nullable parameter, `edited_by` is always assigned and `edited_at` never; the
`WHERE` clause filters on `id` alone. -/
def applyProductUpdate (newImagePath : String) (req : ProductUpdateRequest)
    (priceArg : Int) (userID pid : Int) (row : ProductRow) : ProductRow :=
  if row.id = pid then
    { row with
      image := if newImagePath != "" then newImagePath else row.image
      title := if req.title != "" then req.title else row.title
      description := if req.description != "" then req.description else row.description
      typeProduct := if req.typeProduct != "" then req.typeProduct else row.typeProduct
      price := if priceArg != 0 then priceArg else row.price
      status := match req.status with | some b => b | none => row.status
      editedBy := some userID }
  else row

/-- The observable result of one handler invocation: HTTP status class, the
effect trace, and the table contents afterwards. -/
structure HandlerRun (ρ : Type) where
  status : HStatus
  trace : List FsEvent
  db : List ρ
  deriving DecidableEq, Repr

/-- Tail of `UpdateProduct` after upload handling (lines 262-334): an explicit
negative price is rejected, then the statement runs; on a store error the
freshly saved image (if any) is removed inline (`os.Remove("." +
newImagePath)`) before the 500 response, on success the row semantics apply. -/
def productExec (userID pid : Int) (req : ProductUpdateRequest) (priceArg : Int)
    (dbFail : Option String) (db : List ProductRow) (newImagePath : String)
    (tr0 : List FsEvent) : HandlerRun ProductRow :=
  match dbFail with
  | some _ =>
    ⟨.internal,
      tr0 ++ [FsEvent.dbWrite] ++
        (if newImagePath != "" then [FsEvent.syncRemove ("." ++ newImagePath)] else []),
      db⟩
  | none =>
    ⟨.ok, tr0 ++ [FsEvent.dbWrite],
      db.map (applyProductUpdate newImagePath req priceArg userID pid)⟩

/-- Price conversion step of `UpdateProduct` (lines 262-276). -/
def productDbStep (userID pid : Int) (req : ProductUpdateRequest) (dbFail : Option String)
    (db : List ProductRow) (newImagePath : String) (tr0 : List FsEvent) :
    HandlerRun ProductRow :=
  match req.price with
  | some v =>
    if v < 0 then ⟨.badRequest, tr0, db⟩
    else productExec userID pid req v dbFail db newImagePath tr0
  | none => productExec userID pid req 0 dbFail db newImagePath tr0

/-- `UpdateProduct` (product_handler.go lines 179-335). `upload` is the
uploaded file's name (`none` when no `image` part was sent) and `dbFail` the
store error message when the mutation fails (`none` = success). The existence
pre-check uses `id = $1 AND deleted_at IS NULL`; when a file is uploaded the
new image is saved and the removal of the old image is launched on a detached
goroutine — before the store mutation runs. -/
def updateProduct (nowNano : Nat) (userID pid : Int) (req : ProductUpdateRequest)
    (upload : Option String) (dbFail : Option String) (db : List ProductRow) :
    HandlerRun ProductRow :=
  match db.find? (fun r => r.id == pid && r.deletedAt == none) with
  | none => ⟨.notFound, [], db⟩
  | some existing =>
    match upload with
    | some uploadName =>
      let ext := goToLower (goExt uploadName)
      if allowedImageExts.contains ext then
        let title2 := goReplaceAll req.title ' ' '-'
        let filename := s!"{nowNano}-{title2}{ext}"
        let tr0 := FsEvent.save (goJoin "./uploads/products" filename) ::
          (if existing.image != "" then [FsEvent.asyncRemove ("." ++ existing.image)] else [])
        productDbStep userID pid req dbFail db ("/uploads/products/" ++ filename) tr0
      else ⟨.badRequest, [], db⟩
    | none => productDbStep userID pid req dbFail db "" []

/-- `models.ProductCreateRequest` after parsing; `price = none` models a
price string `decimal.NewFromString` rejects. -/
structure ProductCreateRequest where
  title : String
  description : String
  typeProduct : String
  price : Option Int
  status : Bool
  deriving DecidableEq, Repr

/-- `CreateProduct` (product_handler.go lines 45-158): image required,
extension whitelist, price parsed and checked non-negative, image saved,
INSERT executed; an INSERT error removes the saved file inline
(`os.Remove(filePath)`) before the 500 response. -/
def createProduct (nowNano : Nat) (userID : Int) (req : ProductCreateRequest)
    (upload : Option String) (dbFail : Option String) (newID : Int)
    (db : List ProductRow) : HandlerRun ProductRow :=
  match upload with
  | none => ⟨.badRequest, [], db⟩
  | some uploadName =>
    let ext := goToLower (goExt uploadName)
    if allowedImageExts.contains ext then
      match req.price with
      | none => ⟨.badRequest, [], db⟩
      | some v =>
        if v < 0 then ⟨.badRequest, [], db⟩
        else
          let title2 := goReplaceAll req.title ' ' '-'
          let filename := s!"{nowNano}-{title2}{ext}"
          let filePath := goJoin "./uploads/products" filename
          match dbFail with
          | some _ =>
            ⟨.internal,
              [FsEvent.save filePath, FsEvent.dbWrite, FsEvent.syncRemove filePath], db⟩
          | none =>
            ⟨.created, [FsEvent.save filePath, FsEvent.dbWrite],
              db ++ [{ id := newID, image := "/uploads/products/" ++ filename,
                       title := req.title, description := req.description,
                       typeProduct := req.typeProduct, price := v, status := req.status,
                       createdAt := nowNano, createdBy := userID, editedAt := none,
                       editedBy := none, deletedAt := none, deletedBy := none }]⟩
    else ⟨.badRequest, [], db⟩

/-- A row of the `carousel` table (`internal/models/carousel.go`). -/
structure CarouselRow where
  id : Int
  image : String
  title : String
  description : String
  status : Bool
  createdAt : Nat
  createdBy : Option Int
  editedAt : Option Nat
  editedBy : Option Int
  deletedAt : Option Nat
  deletedBy : Option Int
  deriving DecidableEq, Repr

/-- Parsed form fields of `UpdateCarousel` (`status = none` when the form
field was absent). -/
structure CarouselUpdateRequest where
  title : String
  description : String
  status : Option Bool
  deriving DecidableEq, Repr

/-- Row semantics of `UPDATE carousel SET ... WHERE id = $6 RETURNING *`
(src/unnamed/part_007 lines 232-248). -/
def applyCarouselUpdate (newImagePath : String) (req : CarouselUpdateRequest)
    (userID cid : Int) (row : CarouselRow) : CarouselRow :=
  if row.id = cid then
    { row with
      image := if newImagePath != "" then newImagePath else row.image
      title := if req.title != "" then req.title else row.title
      description := if req.description != "" then req.description else row.description
      status := match req.status with | some b => b | none => row.status
      editedBy := some userID }
  else row

/-- Store step of `UpdateCarousel` (part_007 lines 231-274): same shape as the
product one; on a store error the inline compensation runs
`os.Remove("." + newImagePath)` where `newImagePath` has no leading slash. -/
def carouselExec (userID cid : Int) (req : CarouselUpdateRequest) (dbFail : Option String)
    (db : List CarouselRow) (newImagePath : String) (tr0 : List FsEvent) :
    HandlerRun CarouselRow :=
  match dbFail with
  | some _ =>
    ⟨.internal,
      tr0 ++ [FsEvent.dbWrite] ++
        (if newImagePath != "" then [FsEvent.syncRemove ("." ++ newImagePath)] else []),
      db⟩
  | none =>
    ⟨.ok, tr0 ++ [FsEvent.dbWrite], db.map (applyCarouselUpdate newImagePath req userID cid)⟩

/-- The filename `UpdateCarousel` builds (part_007 lines 202-212). -/
def carouselFilename (nowNano : Nat) (title : String) (ext : String) : String :=
  if title = "" then s!"{nowNano}{ext}"
  else
    let title2 := goReplaceAll title ' ' '_'
    s!"{nowNano}-{title2}{ext}"

/-- `UpdateCarousel` (src/unnamed/part_007 lines 141-275). No extension
whitelist; carousel image references are stored without a leading slash
(`uploads/carousel/...`), and both the detached old-image removal and the
inline compensating removal prepend `"."`, producing `.uploads/carousel/...`. -/
def updateCarousel (nowNano : Nat) (userID cid : Int) (req : CarouselUpdateRequest)
    (upload : Option String) (dbFail : Option String) (db : List CarouselRow) :
    HandlerRun CarouselRow :=
  match db.find? (fun r => r.id == cid && r.deletedAt == none) with
  | none => ⟨.notFound, [], db⟩
  | some existing =>
    match upload with
    | some uploadName =>
      let filename := carouselFilename nowNano req.title (goExt uploadName)
      let tr0 := FsEvent.save (goJoin "uploads/carousel/" filename) ::
        (if existing.image != "" then [FsEvent.asyncRemove ("." ++ existing.image)] else [])
      carouselExec userID cid req dbFail db ("uploads/carousel/" ++ filename) tr0
    | none => carouselExec userID cid req dbFail db "" []

theorem erase_pair (x y : String) : (([x].erase y).erase x : List String) = [] := by
  rcases eq_or_ne x y with h | h
  · subst h
    simp
  · rw [List.erase_cons, if_neg (by simpa using h)]
    simp

/-- The compensating `os.Remove("." + newImagePath)` of `UpdateProduct`
denotes the same file `c.SaveFile` wrote via
`filepath.Join("./uploads/products", fn)`. -/
theorem product_paths_agree (fn : String) :
    pathClean ("." ++ ("/uploads/products/" ++ fn))
      = pathClean (goJoin "./uploads/products" fn) := rfl

theorem productsPath_ne_empty (fn : String) :
    (("/uploads/products/" ++ fn) != "") = true := rfl

theorem carouselPath_ne_empty (fn : String) :
    (("uploads/carousel/" ++ fn) != "") = true := rfl

/-- On a store error, the tail of `UpdateProduct` returns 500 with the trace
extended by the mutation attempt and the inline compensating removal. -/
theorem productExec_fail (userID pid : Int) (req : ProductUpdateRequest) (priceArg : Int)
    (msg : String) (db : List ProductRow) (nip : String) (tr0 : List FsEvent)
    (hnip : (nip != "") = true) :
    productExec userID pid req priceArg (some msg) db nip tr0 =
      ⟨HStatus.internal, tr0 ++ [FsEvent.dbWrite, FsEvent.syncRemove ("." ++ nip)], db⟩ := by
  unfold productExec
  dsimp only
  rw [if_pos hnip, List.append_assoc]
  rfl

theorem productExec_ok (userID pid : Int) (req : ProductUpdateRequest) (priceArg : Int)
    (db : List ProductRow) (nip : String) (tr0 : List FsEvent) :
    productExec userID pid req priceArg none db nip tr0 =
      ⟨HStatus.ok, tr0 ++ [FsEvent.dbWrite],
        db.map (applyProductUpdate nip req priceArg userID pid)⟩ := rfl

theorem carouselExec_fail (userID cid : Int) (req : CarouselUpdateRequest)
    (msg : String) (db : List CarouselRow) (nip : String) (tr0 : List FsEvent)
    (hnip : (nip != "") = true) :
    carouselExec userID cid req (some msg) db nip tr0 =
      ⟨HStatus.internal, tr0 ++ [FsEvent.dbWrite, FsEvent.syncRemove ("." ++ nip)], db⟩ := by
  unfold carouselExec
  dsimp only
  rw [if_pos hnip, List.append_assoc]
  rfl

theorem carouselExec_ok (userID cid : Int) (req : CarouselUpdateRequest)
    (db : List CarouselRow) (nip : String) (tr0 : List FsEvent) :
    carouselExec userID cid req none db nip tr0 =
      ⟨HStatus.ok, tr0 ++ [FsEvent.dbWrite],
        db.map (applyCarouselUpdate nip req userID cid)⟩ := rfl

/-- Save-then-remove of the same file leaves nothing behind. -/
theorem fsRun_save_then_remove (p : String) :
    fsRun [] [FsEvent.save p, FsEvent.dbWrite, FsEvent.syncRemove p] = [] := by
  show ([pathClean p].erase (pathClean p)) = []
  simp

/-- Tail of a failed `UpdateProduct` with a fresh upload: 500 and no leaked
file, whether or not an old image removal was interleaved. -/
theorem productTail_failed_cleanup (userID pid : Int) (req : ProductUpdateRequest)
    (msg : String) (db : List ProductRow) (fn img : String)
    (hprice : ∀ v, req.price = some v → 0 ≤ v) :
    (productDbStep userID pid req (some msg) db ("/uploads/products/" ++ fn)
        (FsEvent.save (goJoin "./uploads/products" fn) ::
          (if img != "" then [FsEvent.asyncRemove ("." ++ img)] else []))).status
      = HStatus.internal ∧
    fsRun [] (productDbStep userID pid req (some msg) db ("/uploads/products/" ++ fn)
        (FsEvent.save (goJoin "./uploads/products" fn) ::
          (if img != "" then [FsEvent.asyncRemove ("." ++ img)] else []))).trace
      = [] := by
  have key : ∀ priceArg : Int,
      (productExec userID pid req priceArg (some msg) db ("/uploads/products/" ++ fn)
          (FsEvent.save (goJoin "./uploads/products" fn) ::
            (if img != "" then [FsEvent.asyncRemove ("." ++ img)] else []))).status
        = HStatus.internal ∧
      fsRun [] (productExec userID pid req priceArg (some msg) db
          ("/uploads/products/" ++ fn)
          (FsEvent.save (goJoin "./uploads/products" fn) ::
            (if img != "" then [FsEvent.asyncRemove ("." ++ img)] else []))).trace
        = [] := by
    intro priceArg
    rw [productExec_fail userID pid req priceArg msg db _ _ (productsPath_ne_empty fn)]
    refine ⟨rfl, ?_⟩
    by_cases himg : (img != "") = true
    · rw [if_pos himg]
      show (([pathClean (goJoin "./uploads/products" fn)].erase
          (pathClean ("." ++ img))).erase
          (pathClean ("." ++ ("/uploads/products/" ++ fn)))) = []
      rw [product_paths_agree fn]
      exact erase_pair _ _
    · rw [if_neg himg]
      show (([pathClean (goJoin "./uploads/products" fn)]).erase
          (pathClean ("." ++ ("/uploads/products/" ++ fn)))) = []
      rw [product_paths_agree fn]
      simp
  unfold productDbStep
  cases hp : req.price with
  | none => exact key 0
  | some v =>
    dsimp only
    rw [if_neg (not_lt.mpr (hprice v hp))]
    exact key v

/-- A failed `UpdateProduct` mutation with a fresh upload returns 500 and
leaves no file behind: the saved image is synchronously removed by the
compensation before the response. -/
theorem updateProduct_failed_cleanup (nowNano : Nat) (userID pid : Int)
    (req : ProductUpdateRequest) (uploadName msg : String) (db : List ProductRow)
    (existing : ProductRow)
    (hfind : db.find? (fun r => r.id == pid && r.deletedAt == none) = some existing)
    (hext : allowedImageExts.contains (goToLower (goExt uploadName)) = true)
    (hprice : ∀ v, req.price = some v → 0 ≤ v) :
    (updateProduct nowNano userID pid req (some uploadName) (some msg) db).status
        = HStatus.internal ∧
    fsRun [] (updateProduct nowNano userID pid req (some uploadName) (some msg) db).trace
        = [] := by
  unfold updateProduct
  rw [hfind]
  dsimp only
  rw [if_pos hext]
  exact productTail_failed_cleanup userID pid req msg db _ existing.image hprice

/-- A failed `CreateProduct` insert returns 500 and leaves no file behind. -/
theorem createProduct_failed_cleanup (nowNano : Nat) (userID : Int)
    (req : ProductCreateRequest) (uploadName msg : String) (newID : Int)
    (db : List ProductRow) (v : Int)
    (hext : allowedImageExts.contains (goToLower (goExt uploadName)) = true)
    (hprice : req.price = some v) (hv : 0 ≤ v) :
    (createProduct nowNano userID req (some uploadName) (some msg) newID db).status
        = HStatus.internal ∧
    fsRun [] (createProduct nowNano userID req (some uploadName) (some msg) newID db).trace
        = [] := by
  unfold createProduct
  dsimp only
  rw [if_pos hext, hprice]
  dsimp only
  rw [if_neg (not_lt.mpr hv)]
  exact ⟨rfl, fsRun_save_then_remove _⟩

/-- The carousel change-set used in the leak scenarios. -/
def c7Req : CarouselUpdateRequest := { title := "x", description := "", status := none }

/-- Carousel row 3 with an existing image reference. -/
def c7Car : CarouselRow :=
  { id := 3, image := "uploads/carousel/old.png", title := "t", description := "d",
    status := true, createdAt := 1, createdBy := some 1, editedAt := none,
    editedBy := none, deletedAt := none, deletedBy := none }

/-- C7 counterexample: in `UpdateCarousel` the new image is saved at
`uploads/carousel/7-x.png`, the mutation fails, a synchronous compensating
remove is attempted — but of `.uploads/carousel/7-x.png` (the code prepends
`"."` to a reference stored without a leading slash), so the freshly uploaded
artifact remains on disk after the 500 response: the failed write leaks it. -/
theorem c7_carousel_leak_counterexample :
    (updateCarousel 7 1 3 c7Req (some "new.png") (some "boom") [c7Car]).status
        = HStatus.internal ∧
    FsEvent.syncRemove ".uploads/carousel/7-x.png"
        ∈ (updateCarousel 7 1 3 c7Req (some "new.png") (some "boom") [c7Car]).trace ∧
    fsRun [] (updateCarousel 7 1 3 c7Req (some "new.png") (some "boom") [c7Car]).trace
        = ["uploads/carousel/7-x.png"] :=
  ⟨rfl, by decide, rfl⟩

/-- C7 amended: in the product create and update handlers a freshly written
artifact is synchronously deleted before the error response when the store
mutation fails, and no file leaks; in the carousel update handler the
compensating delete is likewise attempted synchronously before the response,
but it removes `"." + path` for a reference stored without a leading slash —
`.uploads/carousel/...` — so the freshly written carousel artifact is leaked. -/
theorem c7_compensating_delete_amended :
    (∀ (nowNano : Nat) (userID pid : Int) (req : ProductUpdateRequest)
        (uploadName msg : String) (db : List ProductRow) (existing : ProductRow),
      db.find? (fun r => r.id == pid && r.deletedAt == none) = some existing →
      allowedImageExts.contains (goToLower (goExt uploadName)) = true →
      (∀ v, req.price = some v → 0 ≤ v) →
      (updateProduct nowNano userID pid req (some uploadName) (some msg) db).status
          = HStatus.internal ∧
      fsRun [] (updateProduct nowNano userID pid req (some uploadName) (some msg) db).trace
          = []) ∧
    (∀ (nowNano : Nat) (userID : Int) (req : ProductCreateRequest)
        (uploadName msg : String) (newID : Int) (db : List ProductRow) (v : Int),
      allowedImageExts.contains (goToLower (goExt uploadName)) = true →
      req.price = some v → 0 ≤ v →
      (createProduct nowNano userID req (some uploadName) (some msg) newID db).status
          = HStatus.internal ∧
      fsRun [] (createProduct nowNano userID req (some uploadName) (some msg) newID db).trace
          = []) ∧
    ((updateCarousel 9 1 3 c7Req (some "pic.png") (some "dberr") [c7Car]).status
          = HStatus.internal ∧
      FsEvent.syncRemove ".uploads/carousel/9-x.png"
          ∈ (updateCarousel 9 1 3 c7Req (some "pic.png") (some "dberr") [c7Car]).trace ∧
      fsRun [] (updateCarousel 9 1 3 c7Req (some "pic.png") (some "dberr") [c7Car]).trace
          = ["uploads/carousel/9-x.png"]) := by
  refine ⟨?_, ?_, rfl, by decide, rfl⟩
  · intro nowNano userID pid req uploadName msg db existing hfind hext hprice
    exact updateProduct_failed_cleanup nowNano userID pid req uploadName msg db existing
      hfind hext hprice
  · intro nowNano userID req uploadName msg newID db v hext hprice hv
    exact createProduct_failed_cleanup nowNano userID req uploadName msg newID db v
      hext hprice hv

/-- Witness for the C7 amended theorem at concrete failing mutations. -/
theorem c7_compensating_delete_witness :
    ((updateProduct 7 1 3 (ProductUpdateRequest.mk "cam" "" "" none none)
        (some "new.png") (some "boom")
        [{ id := 3, image := "/uploads/products/old.jpg", title := "Cam", description := "d",
           typeProduct := "physical", price := 10, status := true, createdAt := 1,
           createdBy := 1, editedAt := some 2, editedBy := some 1, deletedAt := none,
           deletedBy := none }]).status = HStatus.internal ∧
      fsRun [] (updateProduct 7 1 3 (ProductUpdateRequest.mk "cam" "" "" none none)
        (some "new.png") (some "boom")
        [{ id := 3, image := "/uploads/products/old.jpg", title := "Cam", description := "d",
           typeProduct := "physical", price := 10, status := true, createdAt := 1,
           createdBy := 1, editedAt := some 2, editedBy := some 1, deletedAt := none,
           deletedBy := none }]).trace = []) ∧
    ((createProduct 7 1 (ProductCreateRequest.mk "Cam" "d" "physical" (some 5) true)
        (some "new.png") (some "boom") 4 []).status = HStatus.internal ∧
      fsRun [] (createProduct 7 1 (ProductCreateRequest.mk "Cam" "d" "physical" (some 5) true)
        (some "new.png") (some "boom") 4 []).trace = []) :=
  ⟨c7_compensating_delete_amended.1 7 1 3 (ProductUpdateRequest.mk "cam" "" "" none none)
      "new.png" "boom"
      [{ id := 3, image := "/uploads/products/old.jpg", title := "Cam", description := "d",
         typeProduct := "physical", price := 10, status := true, createdAt := 1,
         createdBy := 1, editedAt := some 2, editedBy := some 1, deletedAt := none,
         deletedBy := none }]
      { id := 3, image := "/uploads/products/old.jpg", title := "Cam", description := "d",
        typeProduct := "physical", price := 10, status := true, createdAt := 1,
        createdBy := 1, editedAt := some 2, editedBy := some 1, deletedAt := none,
        deletedBy := none }
      (by decide) (by decide) (by intro v hv; cases hv),
    c7_compensating_delete_amended.2.1 7 1
      (ProductCreateRequest.mk "Cam" "d" "physical" (some 5) true) "new.png" "boom" 4 [] 5
      (by decide) rfl (by decide)⟩

/-- The product row that has its image superseded in the C8 scenarios. -/
def c8Row : ProductRow :=
  { id := 3, image := "/uploads/products/old.jpg", title := "Cam", description := "d",
    typeProduct := "physical", price := 10, status := true, createdAt := 1, createdBy := 1,
    editedAt := some 2, editedBy := some 1, deletedAt := none, deletedBy := none }

/-- The C8 scenario change-set. -/
def c8Req : ProductUpdateRequest :=
  { title := "cam", description := "", typeProduct := "", price := none, status := none }

/-- C8 counterexample: in `UpdateProduct` the detached removal of the old
image is launched immediately after the new image is saved and before the
store mutation runs; here the mutation then fails, yet the old artifact's
deletion had already been fired — deletion is not gated on a confirmed
commit. -/
theorem c8_early_async_delete_counterexample :
    (updateProduct 7 1 3 c8Req (some "new.png") (some "boom") [c8Row]).status
        = HStatus.internal ∧
    (updateProduct 7 1 3 c8Req (some "new.png") (some "boom") [c8Row]).trace =
      [FsEvent.save "uploads/products/7-cam.png",
       FsEvent.asyncRemove "./uploads/products/old.jpg",
       FsEvent.dbWrite,
       FsEvent.syncRemove "./uploads/products/7-cam.png"] :=
  ⟨rfl, rfl⟩

/-- C8 amended: in the product and carousel update handlers the removal of a
superseded artifact is launched (on a detached goroutine) right after the new
artifact is saved — before the store mutation is attempted and irrespective
of its outcome — rather than after the database commit is confirmed. -/
theorem c8_supersession_order_amended :
    (∀ (nowNano : Nat) (userID pid : Int) (req : ProductUpdateRequest)
        (uploadName : String) (dbFail : Option String) (db : List ProductRow)
        (existing : ProductRow),
      db.find? (fun r => r.id == pid && r.deletedAt == none) = some existing →
      allowedImageExts.contains (goToLower (goExt uploadName)) = true →
      (existing.image != "") = true →
      ∃ savedPath rest,
        (updateProduct nowNano userID pid req (some uploadName) dbFail db).trace =
          FsEvent.save savedPath :: FsEvent.asyncRemove ("." ++ existing.image) :: rest) ∧
    (∀ (nowNano : Nat) (userID cid : Int) (req : CarouselUpdateRequest)
        (uploadName : String) (dbFail : Option String) (db : List CarouselRow)
        (existing : CarouselRow),
      db.find? (fun r => r.id == cid && r.deletedAt == none) = some existing →
      (existing.image != "") = true →
      ∃ savedPath rest,
        (updateCarousel nowNano userID cid req (some uploadName) dbFail db).trace =
          FsEvent.save savedPath :: FsEvent.asyncRemove ("." ++ existing.image) :: rest) := by
  constructor
  · intro nowNano userID pid req uploadName dbFail db existing hfind hext himg
    unfold updateProduct
    rw [hfind]
    dsimp only
    rw [if_pos hext, if_pos himg]
    unfold productDbStep
    cases hp : req.price with
    | none =>
      cases dbFail with
      | none =>
        rw [productExec_ok]
        exact ⟨_, _, rfl⟩
      | some m =>
        rw [productExec_fail _ _ _ _ _ _ _ _ (productsPath_ne_empty _)]
        exact ⟨_, _, rfl⟩
    | some v =>
      dsimp only
      by_cases hv : v < 0
      · rw [if_pos hv]
        exact ⟨_, _, rfl⟩
      · rw [if_neg hv]
        cases dbFail with
        | none =>
          rw [productExec_ok]
          exact ⟨_, _, rfl⟩
        | some m =>
          rw [productExec_fail _ _ _ _ _ _ _ _ (productsPath_ne_empty _)]
          exact ⟨_, _, rfl⟩
  · intro nowNano userID cid req uploadName dbFail db existing hfind himg
    unfold updateCarousel
    rw [hfind]
    dsimp only
    rw [if_pos himg]
    cases dbFail with
    | none =>
      rw [carouselExec_ok]
      exact ⟨_, _, rfl⟩
    | some m =>
      rw [carouselExec_fail _ _ _ _ _ _ _ (carouselPath_ne_empty _)]
      exact ⟨_, _, rfl⟩

/-- Witness for the C8 amended theorem at concrete superseding updates. -/
theorem c8_supersession_order_witness :
    (∃ savedPath rest,
      (updateProduct 7 1 3 c8Req (some "new.png") none [c8Row]).trace =
        FsEvent.save savedPath :: FsEvent.asyncRemove ("." ++ c8Row.image) :: rest) ∧
    (∃ savedPath rest,
      (updateCarousel 7 1 3 c7Req (some "new.png") none [c7Car]).trace =
        FsEvent.save savedPath :: FsEvent.asyncRemove ("." ++ c7Car.image) :: rest) :=
  ⟨c8_supersession_order_amended.1 7 1 3 c8Req "new.png" none [c8Row] c8Row
      (by decide) (by decide) (by decide),
    c8_supersession_order_amended.2 7 1 3 c7Req "new.png" none [c7Car] c7Car
      (by decide) (by decide)⟩

/-- The live user row for the C5 counterexample (previously edited at time 5). -/
def c5Row : UserRow :=
  { id := 2, name := "Two", phone := "+628222222222", username := "two22",
    password := "h", role := "user", status := true, createdAt := 1,
    createdBy := some 1, editedAt := some 5, editedBy := some 4,
    deletedAt := none, deletedBy := none }

/-- C5 counterexample: a successful update of user 2 by admin 1 stores
`editedBy = 1` but leaves `editedAt` at its prior value 5 — not strictly
greater — because neither the users statement built by `buildUpdateQuery` nor
the products update statement ever assigns `edited_at`. -/
theorem c5_editedAt_counterexample :
    (updateUser (fun s => s) 1 RoleAdmin 2 nameOnlyReq [c5Row]).1 = HStatus.ok ∧
    (updateUser (fun s => s) 1 RoleAdmin 2 nameOnlyReq [c5Row]).2 =
      [{ c5Row with name := "Bob", editedBy := some 1 }] ∧
    c5Row.editedAt = some 5 ∧
    ({ c5Row with name := "Bob", editedBy := some 1 } : UserRow).editedAt = some 5 :=
  ⟨rfl, by decide, rfl, rfl⟩

/-- C5 amended: on every row a users or products update statement touches, it
stores `editedBy = ` the acting principal's subjectID, but it never changes
`editedAt`: the timestamp keeps its prior value instead of strictly
increasing. -/
theorem c5_audit_fields_amended :
    (∀ (req : UpdateRequest) (hp : String) (editedBy targetID : Int) (role : String)
        (row : UserRow), row.id = targetID →
      (applyUserUpdate req hp editedBy targetID role row).editedBy = some editedBy ∧
      (applyUserUpdate req hp editedBy targetID role row).editedAt = row.editedAt) ∧
    (∀ (newImagePath : String) (req : ProductUpdateRequest) (priceArg : Int)
        (userID pid : Int) (row : ProductRow), row.id = pid →
      (applyProductUpdate newImagePath req priceArg userID pid row).editedBy = some userID ∧
      (applyProductUpdate newImagePath req priceArg userID pid row).editedAt
        = row.editedAt) := by
  constructor
  · intro req hp editedBy targetID role row hid
    unfold applyUserUpdate
    rw [if_pos hid]
    exact ⟨rfl, rfl⟩
  · intro newImagePath req priceArg userID pid row hid
    unfold applyProductUpdate
    rw [if_pos hid]
    exact ⟨rfl, rfl⟩

/-- Witness for the C5 amended theorem at concrete rows. -/
theorem c5_audit_fields_witness :
    ((applyUserUpdate nameOnlyReq "" 1 2 RoleAdmin c5Row).editedBy = some 1 ∧
      (applyUserUpdate nameOnlyReq "" 1 2 RoleAdmin c5Row).editedAt = c5Row.editedAt) ∧
    ((applyProductUpdate "" c8Req 0 1 3 c8Row).editedBy = some 1 ∧
      (applyProductUpdate "" c8Req 0 1 3 c8Row).editedAt = c8Row.editedAt) :=
  ⟨c5_audit_fields_amended.1 nameOnlyReq "" 1 2 RoleAdmin c5Row rfl,
    c5_audit_fields_amended.2 "" c8Req 0 1 3 c8Row rfl⟩

/-- `models.RegisterRequest` (all fields are strings). -/
structure RegisterRequest where
  name : String
  phone : String
  username : String
  password : String
  role : String
  deriving DecidableEq, Repr

/-- Go `strings.TrimSpace` on ASCII input. -/
def goTrimSpace (s : String) : String :=
  String.mk
    (((s.toList.dropWhile Char.isWhitespace).reverse.dropWhile Char.isWhitespace).reverse)

/-- Success of Go `strconv.Atoi`: an optional sign followed by at least one
digit. (Phones in the accepted 10-15 digit range never overflow `int`; for
longer strings Go also rejects, via overflow, as this model does via the
max-length check.) -/
def goAtoiOk (s : String) : Bool :=
  match s.toList with
  | [] => false
  | c :: rest =>
    if c = '+' || c = '-' then !rest.isEmpty && rest.all Char.isDigit
    else (c :: rest).all Char.isDigit

/-- `validateRegistrationInput` (user_handler.go lines 601-679): the keys of
the `errors` map after all checks; the registration is accepted when the list
is empty. Each field's `else if` cascade errors exactly when the disjunction
of its conditions holds. -/
def validateRegistrationInput (req : RegisterRequest) : List String :=
  let name := goTrimSpace req.name
  let phone := goTrimSpace req.phone
  let username := goTrimSpace req.username
  let password := goTrimSpace req.password
  (if name = "" || name.length < 3 || name.length > 100 then ["name"] else []) ++
  (if phone = "" || !goAtoiOk phone || phone.length < 10 || phone.length > 15 then
    ["phone"] else []) ++
  (if username = "" || username.length < 5 || username.length > 50 ||
      !(username.toList.all fun c => c.isAlpha || c.isDigit || c = '_') then
    ["username"] else []) ++
  (if password = "" || password.length < 8 || password.length > 72 ||
      !(password.toList.any fun c => c.isUpper) ||
      !(password.toList.any fun c => c.isLower) ||
      !(password.toList.any fun c => c.isDigit) then
    ["password"] else [])

/-- `RegisterUser` (user_handler.go lines 535-599): validation, bcrypt, the
public-registration role default — `admin` when the submitted role is empty —
then the INSERT with the same error mapping as `CreateUser` (`none` is the
propagated panic of `isUniqueConstraintViolation`). The second component is
the role stored for the created account. -/
def registerUser (req : RegisterRequest) (dbFail : Option String) :
    Option (HStatus × Option String) :=
  if validateRegistrationInput req != [] then some (.badRequest, none)
  else
    let role := if req.role = "" then RoleAdmin else req.role
    match dbFail with
    | some msg =>
      match mutationErrorStatus msg with
      | none => none
      | some st => some (st, none)
    | none => some (.created, some role)

/-- The route table of `main` (src/unnamed/part_008 lines 94-143): method,
path, and whether the route sits inside the `AuthMiddleware` group. -/
def routes : List (String × String × Bool) :=
  [("POST", "/register", false),
   ("POST", "/login", false),
   ("POST", "/logout", true),
   ("GET", "/users", true),
   ("GET", "/users/:id", true),
   ("POST", "/users", true),
   ("PUT", "/users/:id", true),
   ("DELETE", "/users/:id", true),
   ("POST", "/carousel", true),
   ("PUT", "/carousel/:id", true),
   ("DELETE", "/carousel/:id", true),
   ("GET", "/carousel", true),
   ("GET", "/carousel/:id", true),
   ("POST", "/products", true),
   ("PUT", "/products/:id", true),
   ("DELETE", "/products/:id", true),
   ("GET", "/products", true),
   ("GET", "/products/:id", true),
   ("POST", "/portfolio/images", true),
   ("PUT", "/portfolio/images/:id", true),
   ("DELETE", "/portfolio/images/:id", true),
   ("GET", "/portfolio/images", true),
   ("GET", "/portfolio/images/:id", true),
   ("POST", "/portfolio/reviews", true),
   ("PUT", "/portfolio/reviews/:id", true),
   ("DELETE", "/portfolio/reviews/:id", true),
   ("GET", "/portfolio/reviews", true),
   ("GET", "/portfolio/reviews/:id", true),
   ("POST", "/messages", true),
   ("PUT", "/messages/:id", true),
   ("DELETE", "/messages/:id", true),
   ("GET", "/messages", true),
   ("GET", "/messages/:id", true)]

/-- C9: `POST /register` is registered outside the auth-middleware group —
reachable without authentication — and every registration request that passes
validation with an empty/omitted role field creates the account with role
`admin`, not the least-privileged role. -/
theorem c9_register_default_admin :
    ("POST", "/register", false) ∈ routes ∧
    (∀ req : RegisterRequest, validateRegistrationInput req = [] → req.role = "" →
      registerUser req none = some (HStatus.created, some RoleAdmin)) := by
  refine ⟨by decide, ?_⟩
  intro req hval hrole
  unfold registerUser
  rw [if_neg (by simp [hval])]
  dsimp only
  rw [hrole]
  rfl

/-- Witness for C9: a concrete valid registration with an empty role field is
created with role `admin`. -/
theorem c9_register_default_admin_witness :
    validateRegistrationInput
        (RegisterRequest.mk "Budi Santoso" "081234567890" "budi_123" "Passw0rdX" "") = [] ∧
    registerUser
        (RegisterRequest.mk "Budi Santoso" "081234567890" "budi_123" "Passw0rdX" "") none
      = some (HStatus.created, some RoleAdmin) :=
  ⟨by decide,
    c9_register_default_admin.2
      (RegisterRequest.mk "Budi Santoso" "081234567890" "budi_123" "Passw0rdX" "")
      (by decide) rfl⟩

end BackendCompro
